import Mathlib

/-
Verification development for the struct-searcher repository.

The definitions below are a shallow embedding of the Python sources:
  * bin.py      : run_lammps, run_lammps_as_one_cycle, relax_step_by_step,
                  extract_unique_structures
  * struct.py   : create_niggli_cell, convert_niggli_cell_to_lattice_constants,
                  calc_angle_from_inner_product, has_enough_space_between_atoms,
                  create_sample_struct_file
  * utils.py    : check_previous_relaxation

External effects (the LAMMPS engine, the filesystem, pymatgen parsing and the
random source) are modelled as explicit inputs: a cycle outcome, oracle draw
streams, parsed energies/volumes/distances, and the string returned by the log
parser.  Energies use rational numbers; the geometric conversions use real
numbers because the source computes with sqrt/cos/arccos.
-/

/- ------------------------------------------------------------------ -/
/- Small string utilities: Python substring test (the source uses
   the expression of the form: "STOP" in result_status).              -/
/- ------------------------------------------------------------------ -/

def matches_at : List Char → List Char → Bool
  | [], _ => true
  | _ :: _, [] => false
  | p :: ps, c :: cs => p == c && matches_at ps cs

def has_sub (pat : List Char) : List Char → Bool
  | [] => matches_at pat []
  | c :: cs => matches_at pat (c :: cs) || has_sub pat cs

/-- Python substring membership: pat in s. -/
def str_contains (s pat : String) : Bool :=
  has_sub pat.toList s.toList

/- ------------------------------------------------------------------ -/
/- bin.py: run_lammps (lines 161-195).                                -/
/- The LAMMPS invocation is external; its outcome is an input.        -/
/- ------------------------------------------------------------------ -/

/-- Outcome of the external LAMMPS invocation inside the try block of
run_lammps: either every call up to the energy extraction succeeded
(with the extracted total energy and the atom count), or some call
raised an exception before the energy extraction. -/
inductive LammpsOutcome where
  | success (energy : ℚ) (n_atom : ℕ)
  | failure
deriving DecidableEq

/-- bin.py run_lammps.  The returned pair is (calc_stats dict, err.log
contents).  calc_stats is the Python dict, modelled as an association
list in insertion order; err_log is the list of tracebacks appended to
the err.log file living next to the log file; tb stands for
traceback.format_exc() of the raised exception.  On success with
n_atom = 0 the division energy / n_atom raises ZeroDivisionError
inside the try block, after the key "energy" has been overwritten. -/
def run_lammps (outcome : LammpsOutcome) (err_log : List String) (tb : String) :
    List (String × ℚ) × List String :=
  match outcome with
  | .success e n =>
      if n = 0 then ([("energy", e)], err_log ++ [tb])
      else ([("energy", e), ("energy_per_atom", e / (n : ℚ))], err_log)
  | .failure => ([("energy", 1e10)], err_log ++ [tb])

/-- Python dict lookup d[k], as an Option (none models KeyError). -/
def dict_get (d : List (String × ℚ)) (k : String) : Option ℚ :=
  match d.find? (fun p => p.1 == k) with
  | some p => some p.2
  | none => none

/-- bin.py run_lammps_as_one_cycle (lines 198-269), reduced to its
result-status and error behaviour.  The file copies are external I/O;
the call to check_previous_relaxation is external to this function and
its outcome (normal return or raised exception, with the traceback) is
the input classification.  The function returns the pair
(result_status, err.log contents); an error value models an uncaught
exception propagating out of the function.  The uncaught access
calc_stats["energy_per_atom"] at the stats-saving step is the final
match. -/
def run_lammps_as_one_cycle (outcome : LammpsOutcome)
    (classification : Except String String)
    (err_log : List String) (tb : String) :
    Except String (String × List String) :=
  let r := run_lammps outcome err_log tb
  let calc_stats := r.1
  let log1 := r.2
  let p : String × List String :=
    match classification with
    | .ok s => (s, log1)
    | .error e => ("STOP: an error is raised", log1 ++ [e])
  match dict_get calc_stats "energy_per_atom" with
  | none => .error "KeyError: energy_per_atom"
  | some _ => .ok p

/- ------------------------------------------------------------------ -/
/- bin.py: relax_step_by_step (lines 272-323).                        -/
/- ------------------------------------------------------------------ -/

/-- How the first-stage cycle loop of relax_step_by_step ended:
an early return (a status containing "STOP"), a break (a status other
than UNFINISHED), or normal exhaustion of the 10 iterations. -/
inductive Stage1End where
  | stopped (s : String)
  | broke (s : String)
  | exhausted
deriving DecidableEq

/-- The stage-1 for-loop of relax_step_by_step.  res i is the result
status returned by run_lammps_as_one_cycle for cycle i (0-based). -/
def stage1_loop (res : ℕ → String) : ℕ → ℕ → Stage1End
  | 0, _ => .exhausted
  | fuel + 1, i =>
    let s := res i
    if str_contains s "STOP" then .stopped s
    else if s ≠ "UNFINISHED" then .broke s
    else stage1_loop res fuel (i + 1)

/-- bin.py relax_step_by_step, reduced to whether the second
relaxation stage (relaxation_id "02") is attempted.  refine_ok is
whether the symmetry-refinement try block between the stages completes
without an exception.  On .stopped the function returns before the
refinement; on .broke or .exhausted it falls through to the refinement
and, when that succeeds, runs the stage-2 loop. -/
def relax_step_by_step (res : ℕ → String) (refine_ok : Bool) : Bool :=
  match stage1_loop res 10 0 with
  | .stopped _ => false
  | _ => refine_ok

/- ------------------------------------------------------------------ -/
/- struct.py: create_sample_struct_file (lines 135-189), control      -/
/- flow of the generation loop.                                       -/
/- ------------------------------------------------------------------ -/

/-- One candidate drawn inside the generation loop: the result of the
volume test (lattice.volume < g_max ** 1.5) and of the
has_enough_space_between_atoms test on the drawn coordinates. -/
structure SampleDraw where
  volume_ok : Bool
  space_ok : Bool
deriving DecidableEq

/-- Result of one iteration of the while-loop body. -/
inductive SampleStep where
  | accepted (cnt : ℕ) (g_min : ℚ)
  | rejected (cnt : ℕ) (g_min : ℚ)
deriving DecidableEq

/-- One iteration of the while-loop of create_sample_struct_file:
volume rejection continues without touching cnt; a single-atom
composition breaks immediately; otherwise the distance check decides,
and on failure cnt and g_min are widened only while cnt < 1000. -/
def sample_iteration (n_atom : ℕ) (g_max : ℚ) (d : SampleDraw)
    (cnt : ℕ) (g_min : ℚ) : SampleStep :=
  if d.volume_ok = false then .rejected cnt g_min
  else if n_atom = 1 then .accepted cnt g_min
  else if d.space_ok then .accepted cnt g_min
  else if cnt < 1000 then .rejected (cnt + 1) (((cnt + 1 : ℕ) : ℚ) / 1000 * g_max)
  else .rejected cnt g_min

/-- The while-loop of create_sample_struct_file run on a stream of
draws, with fuel; some (cnt, g_min) is the loop state at acceptance,
none means the fuel ran out without acceptance. -/
def create_sample_struct_loop (n_atom : ℕ) (g_max : ℚ) (draws : ℕ → SampleDraw) :
    ℕ → ℕ → ℕ → ℚ → Option (ℕ × ℚ)
  | 0, _, _, _ => none
  | fuel + 1, i, cnt, g_min =>
    match sample_iteration n_atom g_max (draws i) cnt g_min with
    | .accepted c g => some (c, g)
    | .rejected c g => create_sample_struct_loop n_atom g_max draws fuel (i + 1) c g

/- ------------------------------------------------------------------ -/
/- bin.py: extract_unique_structures (lines 405-440).                 -/
/- ------------------------------------------------------------------ -/

/-- One scanned candidate of extract_unique_structures: its ID, whether
its final_structure_02 file exists, and the energy and space-group
symbol that find_same_structure reads for it. -/
structure ScannedCandidate where
  structure_id : String
  file_exists : Bool
  energy : ℚ
  space_group : String

/-- Helper of find_same_structure: linear scan of the accepted records. -/
def find_same_structure_go (energy : ℚ) (sg : String) (tol : ℚ) :
    ℕ → List ℚ → List String → Int
  | _, [], _ => -1
  | _, _ :: _, [] => -1
  | i, e :: es, s :: ss =>
    if |e - energy| ≤ tol ∧ s = sg then (i : Int)
    else find_same_structure_go energy sg tol (i + 1) es ss

/-- Modelled from the spec: find_same_structure is imported by bin.py
from struct_searcher.struct but is absent from src.  Following the
spec (section 4.6), a candidate matches record i iff its energy
matches within tolerance and its symmetry label matches exactly, first
match wins; the returned index is -1 when no record matches. -/
def find_same_structure (energy : ℚ) (sg : String)
    (energies : List ℚ) (space_groups : List String) (tol : ℚ) : Int :=
  find_same_structure_go energy sg tol 0 energies space_groups

/-- Append x to the i-th inner list (duplicate_structure_ids[sid].append). -/
def append_at : List (List String) → ℕ → String → List (List String)
  | [], _, _ => []
  | l :: ls, 0, x => (l ++ [x]) :: ls
  | l :: ls, n + 1, x => l :: append_at ls n x

/-- The scan loop of extract_unique_structures, with the accumulators
(energies, space_groups, duplicate_structure_ids).  Faithful to the
source: a candidate whose structure file is absent is skipped; then
sid = -1 hits the continue branch and the candidate is dropped, while
sid ≠ -1 appends to record sid and then also appends a new record. -/
def extract_unique_structures_go (tol : ℚ) :
    List ScannedCandidate → List ℚ → List String → List (List String) →
    List ℚ × List String × List (List String)
  | [], es, sgs, dups => (es, sgs, dups)
  | c :: cs, es, sgs, dups =>
    if c.file_exists = false then extract_unique_structures_go tol cs es sgs dups
    else
      let sid := find_same_structure c.energy c.space_group es sgs tol
      if sid = -1 then extract_unique_structures_go tol cs es sgs dups
      else
        extract_unique_structures_go tol cs (es ++ [c.energy])
          (sgs ++ [c.space_group])
          (append_at dups sid.toNat c.structure_id ++ [[c.structure_id]])

/-- bin.py extract_unique_structures. -/
def extract_unique_structures (cands : List ScannedCandidate) (tol : ℚ) :
    List ℚ × List String × List (List String) :=
  extract_unique_structures_go tol cands [] [] []

/- ------------------------------------------------------------------ -/
/- struct.py: create_niggli_cell (lines 13-34).                       -/
/- ------------------------------------------------------------------ -/

/-- The six values produced by the random source during one iteration
of the while-loop of create_niggli_cell: r1, r2, r3 are the three
uniform(g_min, g_max) draws and r4, r5, r6 the subsequent draws whose
ranges depend on the sorted first three. -/
structure NiggliDraw where
  r1 : ℚ
  r2 : ℚ
  r3 : ℚ
  r4 : ℚ
  r5 : ℚ
  r6 : ℚ

/-- Ascending sort of three values (the niggli.sort() call on the list
of the three uniform draws). -/
def sort3 (a b c : ℚ) : ℚ × ℚ × ℚ :=
  if a ≤ b then
    if b ≤ c then (a, b, c)
    else if a ≤ c then (a, c, b)
    else (c, a, b)
  else
    if a ≤ c then (b, a, c)
    else if b ≤ c then (b, c, a)
    else (c, b, a)

/-- The candidate list built by one loop iteration: the sorted first
three draws followed by r4, r5, r6. -/
def niggli_attempt (d : NiggliDraw) : List ℚ :=
  let s := sort3 d.r1 d.r2 d.r3
  [s.1, s.2.1, s.2.2, d.r4, d.r5, d.r6]

/-- The loop guard of create_niggli_cell:
niggli[0] + niggli[1] + 2 * niggli[3] >= 2 * niggli[4] + 2 * niggli[5]. -/
def niggli_guard (d : NiggliDraw) : Bool :=
  let s := sort3 d.r1 d.r2 d.r3
  decide (s.1 + s.2.1 + 2 * d.r4 ≥ 2 * d.r5 + 2 * d.r6)

/-- struct.py create_niggli_cell, run on a stream of draw records with
fuel: the first attempt whose guard holds is returned. -/
def create_niggli_cell (draws : ℕ → NiggliDraw) : ℕ → ℕ → Option (List ℚ)
  | 0, _ => none
  | fuel + 1, i =>
    if niggli_guard (draws i) then some (niggli_attempt (draws i))
    else create_niggli_cell draws fuel (i + 1)

/-- The contract of random.uniform for the six draws of one iteration:
r1, r2, r3 lie in [g_min, g_max]; writing s for their ascending sort,
r4 lies in [-s.1 / 2, s.1 / 2], r5 in [0, s.1 / 2], r6 in [0, s.2.1 / 2]. -/
def draw_in_range (g_min g_max : ℚ) (d : NiggliDraw) : Prop :=
  g_min ≤ d.r1 ∧ d.r1 ≤ g_max ∧ g_min ≤ d.r2 ∧ d.r2 ≤ g_max ∧
  g_min ≤ d.r3 ∧ d.r3 ≤ g_max ∧
  -((sort3 d.r1 d.r2 d.r3).1 / 2) ≤ d.r4 ∧ d.r4 ≤ (sort3 d.r1 d.r2 d.r3).1 / 2 ∧
  0 ≤ d.r5 ∧ d.r5 ≤ (sort3 d.r1 d.r2 d.r3).1 / 2 ∧
  0 ≤ d.r6 ∧ d.r6 ≤ (sort3 d.r1 d.r2 d.r3).2.1 / 2

/-- The five Niggli-reduction invariants of the claim for a 6-value cell. -/
def niggli_invariants (l : List ℚ) : Prop :=
  match l with
  | [g1, g2, g3, g4, g5, g6] =>
    g1 ≤ g2 ∧ g2 ≤ g3 ∧ |g4| ≤ g1 / 2 ∧ (0 ≤ g5 ∧ g5 ≤ g1 / 2) ∧
    (0 ≤ g6 ∧ g6 ≤ g2 / 2) ∧ g1 + g2 + 2 * g4 ≥ 2 * g5 + 2 * g6
  | _ => False

/- ------------------------------------------------------------------ -/
/- struct.py: geometry (lines 59-93) and the conversion that the      -/
/- tests import.  Real-number model of the float computations; the    -/
/- Except layer models the exceptions Python math functions raise.    -/
/- ------------------------------------------------------------------ -/

noncomputable section

/-- math.degrees. -/
def degrees_of (x : ℝ) : ℝ := x * 180 / Real.pi

/-- math.radians. -/
def radians_of (x : ℝ) : ℝ := x * Real.pi / 180

/-- math.sqrt, which raises ValueError on a negative argument. -/
def sqrt_checked (x : ℝ) : Except String ℝ :=
  if 0 ≤ x then .ok (Real.sqrt x) else .error "ValueError: math domain error"

/-- math.acos, which raises ValueError outside [-1, 1]. -/
def acos_checked (x : ℝ) : Except String ℝ :=
  if |x| ≤ 1 then .ok (Real.arccos x) else .error "ValueError: math domain error"

/-- struct.py _calc_angle_from_inner_product (lines 59-75).  The error
values model the exceptions float division and math.acos can raise;
the clamp branch returns 180 or 0 without calling math.acos. -/
def calc_angle_from_inner_product (a b val : ℝ) : Except String ℝ :=
  if a * b = 0 then .error "ZeroDivisionError: float division by zero"
  else
    let v := val / (a * b)
    if 1 < |v| then .ok (if v < 0 then 180 else 0)
    else do
      let t ← acos_checked v
      .ok (degrees_of t)

/-- struct.py convert_niggli_cell_to_lattice_constants (lines 78-93). -/
def convert_niggli_cell_to_lattice_constants (niggli : List ℝ) :
    Except String (ℝ × ℝ × ℝ × ℝ × ℝ × ℝ) :=
  match niggli with
  | g1 :: g2 :: g3 :: g4 :: g5 :: g6 :: _ => do
    let a ← sqrt_checked g1
    let b ← sqrt_checked g2
    let c ← sqrt_checked g3
    let gamma ← calc_angle_from_inner_product a b g4
    let beta ← calc_angle_from_inner_product c a g5
    let alpha ← calc_angle_from_inner_product b c g6
    .ok (a, b, c, alpha, beta, gamma)
  | _ => .error "IndexError: list index out of range"

/-- Modelled from the spec: convert_lattice_constants_to_niggli_cell is
imported by tests/test_struct.py from struct_searcher.struct but is
absent from src.  Following the spec (section 4.2, toNiggliCell), the
squared lengths come first and the cross terms are
g4 = a b cos gamma, g5 = c a cos beta, g6 = b c cos alpha, with the
angles given in degrees. -/
def convert_lattice_constants_to_niggli_cell
    (a b c alpha beta gamma : ℝ) : List ℝ :=
  [a ^ 2, b ^ 2, c ^ 2,
   a * b * Real.cos (radians_of gamma),
   c * a * Real.cos (radians_of beta),
   b * c * Real.cos (radians_of alpha)]

/- ------------------------------------------------------------------ -/
/- struct.py: has_enough_space_between_atoms (lines 96-132) and       -/
/- utils.py: check_previous_relaxation (lines 72-116).                -/
/- ------------------------------------------------------------------ -/

/-- All pairs i < j of atom indices below n. -/
def atom_pairs (n : ℕ) : List (ℕ × ℕ) :=
  (List.range n).flatMap fun i =>
    ((List.range n).filter fun j => i < j).map fun j => (i, j)

/-- The minimum-search of has_enough_space_between_atoms: the smallest
off-diagonal entry of the distance matrix, starting from 100000. -/
def min_interatomic_distance (distances : ℕ → ℕ → ℝ) (n : ℕ) : ℝ :=
  ((atom_pairs n).map fun p => distances p.1 p.2).foldl
    (fun m x => if x < m then x else m) 100000

/-- struct.py has_enough_space_between_atoms.  The pymatgen distance
matrix is an input; d is the largest characteristic distance among the
elements; the threshold is the fixed 0.75 * d of the source.  The
source function has no dtol parameter. -/
def has_enough_space_between_atoms (distances : ℕ → ℕ → ℝ) (n : ℕ) (d : ℝ) : Bool :=
  decide (min_interatomic_distance distances n ≥ 0.75 * d)

/-- The parameter names of the def statement of
has_enough_space_between_atoms in struct.py (lines 96-101). -/
def has_enough_space_between_atoms_params : List String :=
  ["lattice", "frac_coords", "elements", "n_atom_for_each_element"]

/-- Python keyword-argument binding: a call passing keyword kw binds
iff kw is among the parameter names of the callee; otherwise the call
raises TypeError. -/
def py_call_accepts_kwarg (params : List String) (kw : String) : Bool :=
  params.contains kw

/-- utils.py check_previous_relaxation (lines 72-116).  log_status is
the string returned by parse_lammps_log (absent from src, so taken as
an arbitrary input); energy is calc_stats["energy"]; volume and the
distance matrix describe the parsed relaxed structure; d is the
largest characteristic distance among its elements.  The call at
utils.py line 107 passes the keyword argument dtol=1e-02, which the
callee defined at struct.py line 96 does not accept, so when control
reaches that call Python raises TypeError; the keyword check makes
this explicit. -/
def check_previous_relaxation (log_status : String)
    (energy volume d : ℝ) (distances : ℕ → ℕ → ℝ) (n_atom : ℕ) :
    Except String String :=
  let r1 := if energy ≥ 1e8 ∨ energy ≤ -1e3 then "stop" else log_status
  let max_volume := 200 * 4 * Real.pi * (0.5 * d) ^ 3 / 3
  let r2 := if volume ≥ max_volume then "stop" else r1
  if r2 ≠ "stop" then
    if py_call_accepts_kwarg has_enough_space_between_atoms_params "dtol" then
      if has_enough_space_between_atoms distances n_atom d then .ok r2
      else .ok "stop"
    else .error "TypeError: has_enough_space_between_atoms got an unexpected keyword argument dtol"
  else .ok r2

end

/- ================================================================== -/
/- Theorems                                                           -/
/- ================================================================== -/

/-- Helper: a bind on an ok value reduces. -/
theorem except_bind_ok {α β : Type} (x : α) (f : α → Except String β) :
    (Except.ok x >>= f : Except String β) = f x := rfl

/-- Helper: when every cycle reports UNFINISHED the stage-1 loop runs
out of iterations and ends normally. -/
theorem stage1_loop_unfinished (res : ℕ → String) :
    ∀ (fuel i : ℕ), (∀ j, i ≤ j → j < i + fuel → res j = "UNFINISHED") →
      stage1_loop res fuel i = .exhausted := by
  intro fuel
  induction fuel with
  | zero => intro i _; rfl
  | succ m ih =>
    intro i h
    have hi : res i = "UNFINISHED" := h i le_rfl (by omega)
    have hc : str_contains (res i) "STOP" = false := by rw [hi]; rfl
    have hne : ¬(res i ≠ "UNFINISHED") := by rw [hi]; simp
    simp only [stage1_loop, hc, Bool.false_eq_true, if_false, hne]
    exact ih (i + 1) fun j hj1 hj2 => h j (by omega) (by omega)

/-- C1 counterexample: the claim says that when stage 1 does not reach
the force-tolerance-satisfied reason — a cycle classified STOP by
check_previous_relaxation (which returns the literal "stop"), or all
10 cycles UNFINISHED — stage 2 is never attempted.  In the code, ten
UNFINISHED cycles fall through the loop into the refinement and stage
2, and a "stop" classification breaks the loop (it does not contain
"STOP") and also proceeds to stage 2. -/
theorem relax_step_by_step_c1_counterexample :
    relax_step_by_step (fun _ => "UNFINISHED") true = true ∧
    relax_step_by_step (fun _ => "stop") true = true := by
  exact ⟨rfl, rfl⟩

/-- Helper: a cycle status containing "STOP" ends the loop by the
early return. -/
theorem stage1_loop_step_stopped (res : ℕ → String) (fuel i : ℕ)
    (h : str_contains (res i) "STOP" = true) :
    stage1_loop res (fuel + 1) i = .stopped (res i) := by
  simp only [stage1_loop, h, if_true]

/-- Helper: a cycle status without "STOP" and different from
UNFINISHED ends the loop by the break. -/
theorem stage1_loop_step_broke (res : ℕ → String) (fuel i : ℕ)
    (hc : str_contains (res i) "STOP" = false) (hne : res i ≠ "UNFINISHED") :
    stage1_loop res (fuel + 1) i = .broke (res i) := by
  simp only [stage1_loop, hc, Bool.false_eq_true, if_false]
  rw [if_pos hne]

/-- C1 (amended): stage 2 is skipped exactly when a stage-1 cycle
status contains the substring "STOP" (only the exception path of
run_lammps_as_one_cycle produces such a status) or the symmetry
refinement fails; after ten UNFINISHED cycles, and after a cycle
classified "stop" by check_previous_relaxation, stage 2 is still
attempted whenever the refinement succeeds. -/
theorem relax_step_by_step_c1_amended (res : ℕ → String) (refine_ok : Bool) :
    ((∀ i, i < 10 → res i = "UNFINISHED") →
      relax_step_by_step res refine_ok = refine_ok) ∧
    (str_contains (res 0) "STOP" = true →
      relax_step_by_step res refine_ok = false) ∧
    (res 0 = "stop" → relax_step_by_step res refine_ok = refine_ok) := by
  refine ⟨?_, ?_, ?_⟩
  · intro h
    unfold relax_step_by_step
    rw [stage1_loop_unfinished res 10 0 fun j _ hj => h j (by omega)]
  · intro h
    unfold relax_step_by_step
    rw [show stage1_loop res 10 0 = .stopped (res 0) from
      stage1_loop_step_stopped res 9 0 h]
  · intro h
    unfold relax_step_by_step
    have hc : str_contains (res 0) "STOP" = false := by rw [h]; rfl
    have hne : res 0 ≠ "UNFINISHED" := by rw [h]; decide
    rw [show stage1_loop res 10 0 = .broke (res 0) from
      stage1_loop_step_broke res 9 0 hc hne]

/-- C1 witness: concrete runs of the three cases of the amended claim. -/
theorem relax_step_by_step_c1_witness :
    relax_step_by_step (fun _ => "UNFINISHED") true = true ∧
    str_contains "STOP: an error is raised" "STOP" = true ∧
    relax_step_by_step (fun _ => "STOP: an error is raised") true = false ∧
    relax_step_by_step (fun _ => "stop") true = true :=
  ⟨(relax_step_by_step_c1_amended (fun _ => "UNFINISHED") true).1 fun _ _ => rfl,
   by decide,
   (relax_step_by_step_c1_amended (fun _ => "STOP: an error is raised") true).2.1
     (by decide),
   (relax_step_by_step_c1_amended (fun _ => "stop") true).2.2 rfl⟩

/-- C2 counterexample: when the LAMMPS invocation itself raises, the
claim says run_lammps_as_one_cycle still returns normally with a STOP
status; in the code calc_stats then lacks the key energy_per_atom and
the stats-saving step raises an uncaught KeyError. -/
theorem run_lammps_as_one_cycle_c2_counterexample :
    run_lammps_as_one_cycle .failure (.error "Traceback: parse error") []
      "Traceback: lammps error" = .error "KeyError: energy_per_atom" := rfl

/-- C2 (amended): an exception raised while classifying the cycle
(check_previous_relaxation and its file parsing) is caught, its
traceback is appended to the error log, and the cycle yields the
status "STOP: an error is raised" with a normal return; but when the
minimizer invocation itself raises, run_lammps returns a dict without
energy_per_atom and run_lammps_as_one_cycle propagates a KeyError from
the stats-saving step instead of returning normally. -/
theorem run_lammps_as_one_cycle_c2_amended (e : ℚ) (n : ℕ) (err : String)
    (cls : Except String String) (log : List String) (tb : String)
    (hn : n ≠ 0) :
    run_lammps_as_one_cycle (.success e n) (.error err) log tb =
      .ok ("STOP: an error is raised", log ++ [err]) ∧
    run_lammps_as_one_cycle .failure cls log tb =
      .error "KeyError: energy_per_atom" := by
  constructor
  · simp only [run_lammps_as_one_cycle, run_lammps]
    rw [if_neg hn]
    rfl
  · rfl

/-- C2 witness: a concrete classification failure returns normally
with the error status, under a nonzero atom count. -/
theorem run_lammps_as_one_cycle_c2_witness :
    (2 : ℕ) ≠ 0 ∧
    run_lammps_as_one_cycle (.success 4 2) (.error "Traceback: bad log") []
      "tb" = .ok ("STOP: an error is raised", ["Traceback: bad log"]) := by
  refine ⟨by decide, ?_⟩
  have h := (run_lammps_as_one_cycle_c2_amended 4 2 "Traceback: bad log"
    (.ok "UNFINISHED") [] "tb" (by decide)).1
  simpa using h

/-- C10: when the LAMMPS call raises, run_lammps catches the
exception, appends the traceback to the error log, and returns a dict
whose only entry is energy = 1e10; the dict has no energy_per_atom
key, so the caller run_lammps_as_one_cycle raises KeyError when it
reads that key. -/
theorem run_lammps_c10_failure_contract (log : List String) (tb : String)
    (cls : Except String String) :
    run_lammps .failure log tb = ([("energy", 1e10)], log ++ [tb]) ∧
    dict_get (run_lammps .failure log tb).1 "energy_per_atom" = none ∧
    run_lammps_as_one_cycle .failure cls log tb =
      .error "KeyError: energy_per_atom" :=
  ⟨rfl, rfl, rfl⟩

/-- Helper: when every drawn candidate fails the distance check the
generation loop of create_sample_struct_file never accepts, for any
composition with at least two atoms. -/
theorem sample_loop_space_fail_none (n_atom : ℕ) (hn : 2 ≤ n_atom) (g_max : ℚ)
    (draws : ℕ → SampleDraw) (hfail : ∀ i, (draws i).space_ok = false) :
    ∀ (fuel i cnt : ℕ) (g_min : ℚ),
      create_sample_struct_loop n_atom g_max draws fuel i cnt g_min = none := by
  intro fuel
  induction fuel with
  | zero => intro i cnt g_min; rfl
  | succ m ih =>
    intro i cnt g_min
    have h1 : n_atom ≠ 1 := by omega
    simp only [create_sample_struct_loop, sample_iteration, hfail i, h1,
      Bool.false_eq_true, if_false]
    by_cases hvol : (draws i).volume_ok = false
    · simp only [hvol, if_true]
      exact ih (i + 1) cnt g_min
    · simp only [hvol, if_false]
      by_cases hc : cnt < 1000
      · simp only [hc, if_true]
        exact ih (i + 1) (cnt + 1) _
      · simp only [hc, if_false]
        exact ih (i + 1) cnt g_min

/-- C3 counterexample: the claim says that once the 1000-attempt cap
is exceeded the distance constraint is no longer enforced, so the loop
terminates for any composition with at least 2 atoms.  In the code a
volume-acceptable draw failing the distance check at cnt = 1000 is
still rejected, and a stream of such draws is never accepted (shown
here for 1002 iterations, two past the cap). -/
theorem create_sample_struct_file_c3_counterexample :
    sample_iteration 2 1 ⟨true, false⟩ 1000 1 = .rejected 1000 1 ∧
    create_sample_struct_loop 2 1 (fun _ => ⟨true, false⟩) 1002 0 0 0 = none :=
  ⟨by decide,
   sample_loop_space_fail_none 2 (by norm_num) 1 _ (fun _ => rfl) 1002 0 0 0⟩

/-- C3 (amended): cnt increases by one per failed distance check only
while cnt < 1000, raising g_min to ((cnt+1)/1000) * g_max; once cnt
has reached 1000 a failed check leaves cnt and g_min unchanged and the
distance constraint is still enforced, so acceptance for a composition
with at least two atoms always requires has_enough_space_between_atoms
to pass and the loop is not guaranteed to terminate. -/
theorem create_sample_struct_file_c3_amended (n_atom cnt : ℕ)
    (g_max g_min : ℚ) (d : SampleDraw) (hn : 2 ≤ n_atom)
    (hvol : d.volume_ok = true) :
    (d.space_ok = false → cnt < 1000 →
      sample_iteration n_atom g_max d cnt g_min =
        .rejected (cnt + 1) (((cnt + 1 : ℕ) : ℚ) / 1000 * g_max)) ∧
    (d.space_ok = false → 1000 ≤ cnt →
      sample_iteration n_atom g_max d cnt g_min = .rejected cnt g_min) ∧
    (d.space_ok = true →
      sample_iteration n_atom g_max d cnt g_min = .accepted cnt g_min) ∧
    (∀ draws : ℕ → SampleDraw, (∀ i, (draws i).space_ok = false) →
      ∀ fuel i : ℕ,
        create_sample_struct_loop n_atom g_max draws fuel i cnt g_min = none) := by
  have h1 : n_atom ≠ 1 := by omega
  have hv : ¬(d.volume_ok = false) := by rw [hvol]; decide
  refine ⟨?_, ?_, ?_, ?_⟩
  · intro hs hc
    simp only [sample_iteration, hv, if_false, h1, hs, Bool.false_eq_true,
      hc, if_true]
    rfl
  · intro hs hc
    have hc2 : ¬(cnt < 1000) := by omega
    simp only [sample_iteration, hv, if_false, h1, hs, Bool.false_eq_true,
      hc2]
    rfl
  · intro hs
    simp only [sample_iteration, hv, if_false, h1, hs, if_true]
    rfl
  · intro draws hfail fuel i
    exact sample_loop_space_fail_none n_atom hn g_max draws hfail fuel i cnt g_min

/-- C3 witness: the amended behaviour at concrete states below and at
the widening cap. -/
theorem create_sample_struct_file_c3_witness :
    sample_iteration 2 1 ⟨true, false⟩ 5 0 =
      .rejected 6 (((5 + 1 : ℕ) : ℚ) / 1000 * 1) ∧
    sample_iteration 2 1 ⟨true, true⟩ 5 0 = .accepted 5 0 ∧
    create_sample_struct_loop 2 1 (fun _ => ⟨true, false⟩) 3 0 5 0 = none :=
  ⟨(create_sample_struct_file_c3_amended 2 5 1 0 ⟨true, false⟩ (by norm_num)
      rfl).1 rfl (by norm_num),
   (create_sample_struct_file_c3_amended 2 5 1 0 ⟨true, true⟩ (by norm_num)
      rfl).2.2.1 rfl,
   (create_sample_struct_file_c3_amended 2 5 1 0 ⟨true, false⟩ (by norm_num)
      rfl).2.2.2 _ (fun _ => rfl) 3 0⟩

/-- C4: the scan of extract_unique_structures drops every candidate —
a candidate with sid = -1 (no matching record, in particular every
candidate scanned while no record exists) hits the continue branch and
opens no record, so the accumulators stay empty for any input list; in
particular two present candidates with equal energy and identical
space group produce no record at all, not one record with two member
ids. -/
theorem extract_unique_structures_c4_code_bug :
    extract_unique_structures
      [⟨"00001", true, 1, "Fm-3m"⟩, ⟨"00002", true, 1, "Fm-3m"⟩] (1 / 100) =
      ([], [], []) ∧
    ∀ (cands : List ScannedCandidate) (tol : ℚ),
      extract_unique_structures cands tol = ([], [], []) := by
  constructor
  · decide
  · intro cands tol
    unfold extract_unique_structures
    induction cands with
    | nil => rfl
    | cons c cs ih =>
      simp only [extract_unique_structures_go]
      by_cases h : c.file_exists = false
      · simp only [h, if_true, ih]
      · simp only [h, if_false, find_same_structure, find_same_structure_go,
          if_pos, ih]
        rfl

/-- Helper: sort3 returns an ascending triple. -/
theorem sort3_sorted (a b c : ℚ) :
    (sort3 a b c).1 ≤ (sort3 a b c).2.1 ∧ (sort3 a b c).2.1 ≤ (sort3 a b c).2.2 := by
  unfold sort3
  split_ifs <;> constructor <;> simp_all <;> linarith

/-- C5 (confirmed): whenever the random draws respect the ranges the
source passes to random.uniform, any cell returned by
create_niggli_cell satisfies the five Niggli-reduction invariants:
the three sorted values ascend, the cross terms respect the half
bounds, and the accepted cell satisfies the reduction inequality. -/
theorem create_niggli_cell_c5_invariants (g_max g_min : ℚ)
    (hgmax : 0 < g_max) (hgmin0 : 0 ≤ g_min) (hgmin1 : g_min ≤ g_max)
    (draws : ℕ → NiggliDraw)
    (hrange : ∀ i, draw_in_range g_min g_max (draws i)) :
    ∀ (fuel i : ℕ) (l : List ℚ),
      create_niggli_cell draws fuel i = some l → niggli_invariants l := by
  intro fuel
  induction fuel with
  | zero => intro i l h; exact absurd h (by simp [create_niggli_cell])
  | succ m ih =>
    intro i l h
    by_cases hg : niggli_guard (draws i) = true
    · simp only [create_niggli_cell, hg, if_true, Option.some.injEq] at h
      subst h
      obtain ⟨h1, h2, h3, h4, h5, h6, h7, h8, h9, h10, h11, h12⟩ := hrange i
      have hs := sort3_sorted (draws i).r1 (draws i).r2 (draws i).r3
      have hred := of_decide_eq_true hg
      exact ⟨hs.1, hs.2, abs_le.mpr ⟨h7, h8⟩, ⟨h9, h10⟩, ⟨h11, h12⟩, hred⟩
    · simp only [create_niggli_cell, hg, Bool.false_eq_true, if_false] at h
      exact ih (i + 1) l h

/-- C5 witness: the constant draw stream (1, 1, 1, 0, 0, 0) with
g_max = 2 and g_min = 0 is accepted on the first attempt and the
returned cell satisfies the invariants. -/
theorem create_niggli_cell_c5_witness :
    (0 : ℚ) < 2 ∧ (0 : ℚ) ≤ 0 ∧ (0 : ℚ) ≤ 2 ∧
    create_niggli_cell (fun _ => ⟨1, 1, 1, 0, 0, 0⟩) 1 0 =
      some [1, 1, 1, 0, 0, 0] ∧
    niggli_invariants [1, 1, 1, 0, 0, 0] := by
  have hg : niggli_guard ⟨1, 1, 1, 0, 0, 0⟩ = true := by
    norm_num [niggli_guard, sort3, decide_eq_true_eq]
  have hres : create_niggli_cell (fun _ => ⟨1, 1, 1, 0, 0, 0⟩) 1 0 =
      some [1, 1, 1, 0, 0, 0] := by
    show create_niggli_cell (fun _ => ⟨1, 1, 1, 0, 0, 0⟩) (0 + 1) 0 = _
    simp only [create_niggli_cell, hg, if_true]
    norm_num [niggli_attempt, sort3]
  refine ⟨by norm_num, le_rfl, by norm_num, hres, ?_⟩
  exact create_niggli_cell_c5_invariants 2 0 (by norm_num) le_rfl (by norm_num)
    (fun _ => ⟨1, 1, 1, 0, 0, 0⟩)
    (fun i =>
      (by norm_num [draw_in_range, sort3] : draw_in_range 0 2 ⟨1, 1, 1, 0, 0, 0⟩))
    1 0 _ hres

/-- Helper: math.sqrt of a square of a nonnegative number. -/
theorem sqrt_checked_sq (x : ℝ) (hx : 0 ≤ x) : sqrt_checked (x ^ 2) = .ok x := by
  unfold sqrt_checked
  rw [if_pos (sq_nonneg x), Real.sqrt_sq hx]

/-- Helper: the angle computed from the inner product a * b * cos of
an angle in (0, 180) degrees is that angle. -/
theorem calc_angle_of_cos (a b θ : ℝ) (ha : 0 < a) (hb : 0 < b)
    (h1 : 0 < θ) (h2 : θ < 180) :
    calc_angle_from_inner_product a b (a * b * Real.cos (radians_of θ)) =
      .ok θ := by
  have hab : a * b ≠ 0 := by positivity
  have hv : a * b * Real.cos (radians_of θ) / (a * b) = Real.cos (radians_of θ) :=
    mul_div_cancel_left₀ _ hab
  simp only [calc_angle_from_inner_product]
  rw [if_neg hab, hv]
  rw [if_neg (not_lt.mpr (Real.abs_cos_le_one _))]
  unfold acos_checked
  rw [if_pos (Real.abs_cos_le_one _), except_bind_ok]
  have hπ := Real.pi_pos
  have h0 : 0 ≤ radians_of θ := by
    unfold radians_of
    nlinarith
  have hle : radians_of θ ≤ Real.pi := by
    unfold radians_of
    nlinarith
  rw [Real.arccos_cos h0 hle]
  unfold degrees_of radians_of
  field_simp

/-- C6 (confirmed): converting lattice constants to a Niggli cell and
back reproduces the six values exactly in the real-number model (hence
within any positive tolerance, in particular 1e-9), for positive
lengths and angles in (0, 180). -/
theorem niggli_roundtrip_c6 (a b c alpha beta gamma : ℝ)
    (ha : 0 < a) (hb : 0 < b) (hc : 0 < c)
    (hal1 : 0 < alpha) (hal2 : alpha < 180)
    (hbe1 : 0 < beta) (hbe2 : beta < 180)
    (hga1 : 0 < gamma) (hga2 : gamma < 180) :
    convert_niggli_cell_to_lattice_constants
      (convert_lattice_constants_to_niggli_cell a b c alpha beta gamma) =
      .ok (a, b, c, alpha, beta, gamma) := by
  simp only [convert_lattice_constants_to_niggli_cell,
    convert_niggli_cell_to_lattice_constants]
  rw [sqrt_checked_sq a ha.le]
  simp only [except_bind_ok]
  rw [sqrt_checked_sq b hb.le]
  simp only [except_bind_ok]
  rw [sqrt_checked_sq c hc.le]
  simp only [except_bind_ok]
  rw [calc_angle_of_cos a b gamma ha hb hga1 hga2]
  simp only [except_bind_ok]
  rw [calc_angle_of_cos c a beta hc ha hbe1 hbe2]
  simp only [except_bind_ok]
  rw [calc_angle_of_cos b c alpha hb hc hal1 hal2]
  simp only [except_bind_ok]

/-- C6 witness: the round trip at (5, 6, 9, 90, 90, 90). -/
theorem niggli_roundtrip_c6_witness :
    (0 : ℝ) < 5 ∧ (0 : ℝ) < 90 ∧ (90 : ℝ) < 180 ∧
    convert_niggli_cell_to_lattice_constants
      (convert_lattice_constants_to_niggli_cell 5 6 9 90 90 90) =
      .ok (5, 6, 9, 90, 90, 90) := by
  refine ⟨by norm_num, by norm_num, by norm_num, ?_⟩
  exact niggli_roundtrip_c6 5 6 9 90 90 90 (by norm_num) (by norm_num)
    (by norm_num) (by norm_num) (by norm_num) (by norm_num) (by norm_num)
    (by norm_num) (by norm_num)

/-- Helper: the angle computed from a zero inner product is 90. -/
theorem calc_angle_zero (a b : ℝ) (hab : a * b ≠ 0) :
    calc_angle_from_inner_product a b 0 = .ok 90 := by
  simp only [calc_angle_from_inner_product]
  rw [if_neg hab, zero_div]
  rw [if_neg (by norm_num : ¬(1 : ℝ) < |(0 : ℝ)|)]
  unfold acos_checked
  rw [if_pos (by norm_num : |(0 : ℝ)| ≤ (1 : ℝ)), except_bind_ok,
    Real.arccos_zero]
  unfold degrees_of
  field_simp
  ring

/-- Helper: arccos of one half. -/
theorem arccos_one_half : Real.arccos (1 / 2) = Real.pi / 3 := by
  rw [← Real.cos_pi_div_three]
  exact Real.arccos_cos (by positivity) (by linarith [Real.pi_pos])

/-- Helper: the angle computed for norms 9, 1 and inner product -4.5
is 120 degrees. -/
theorem calc_angle_neg_half :
    calc_angle_from_inner_product 9 1 (-4.5) = .ok 120 := by
  have habs : |(-(1 / 2) : ℝ)| = 1 / 2 := by
    rw [abs_neg, abs_of_nonneg (by norm_num : (0 : ℝ) ≤ 1 / 2)]
  simp only [calc_angle_from_inner_product]
  rw [if_neg (by norm_num : (9 : ℝ) * 1 ≠ 0)]
  rw [show (-4.5) / ((9 : ℝ) * 1) = -(1 / 2) by norm_num]
  rw [if_neg (by rw [habs]; norm_num)]
  unfold acos_checked
  rw [if_pos (by rw [habs]; norm_num), except_bind_ok]
  rw [show (-(1 / 2) : ℝ) = -(1 / 2) from rfl, Real.arccos_neg, arccos_one_half]
  unfold degrees_of
  have hπ := Real.pi_ne_zero
  field_simp
  ring

/-- C9 (confirmed): for positive norms the angle helper never raises —
it clamps to 180 or 0 by the sign of the cosine when the cosine
argument exceeds 1 in magnitude, and otherwise returns
degrees(arccos(val / (a * b))); consequently the Niggli cell
[4, 81, 1, 0, 0, -4.5] converts to (2, 9, 1, 120, 90, 90). -/
theorem calc_angle_from_inner_product_c9 :
    (∀ a b val : ℝ, 0 < a → 0 < b →
      (1 < |val / (a * b)| →
        calc_angle_from_inner_product a b val =
          .ok (if val / (a * b) < 0 then 180 else 0)) ∧
      (|val / (a * b)| ≤ 1 →
        calc_angle_from_inner_product a b val =
          .ok (degrees_of (Real.arccos (val / (a * b)))))) ∧
    convert_niggli_cell_to_lattice_constants [4, 81, 1, 0, 0, -4.5] =
      .ok (2, 9, 1, 120, 90, 90) := by
  constructor
  · intro a b val ha hb
    have hab : a * b ≠ 0 := by positivity
    constructor
    · intro h
      simp only [calc_angle_from_inner_product]
      rw [if_neg hab, if_pos h]
    · intro h
      simp only [calc_angle_from_inner_product]
      rw [if_neg hab, if_neg (not_lt.mpr h)]
      unfold acos_checked
      rw [if_pos h, except_bind_ok]
  · have h4 : sqrt_checked 4 = Except.ok 2 := by
      rw [show (4 : ℝ) = 2 ^ 2 by norm_num]
      exact sqrt_checked_sq 2 (by norm_num)
    have h81 : sqrt_checked 81 = Except.ok 9 := by
      rw [show (81 : ℝ) = 9 ^ 2 by norm_num]
      exact sqrt_checked_sq 9 (by norm_num)
    have h1 : sqrt_checked 1 = Except.ok 1 := by
      unfold sqrt_checked
      rw [if_pos (by norm_num : (0 : ℝ) ≤ 1), Real.sqrt_one]
    simp only [convert_niggli_cell_to_lattice_constants]
    rw [h4]
    simp only [except_bind_ok]
    rw [h81]
    simp only [except_bind_ok]
    rw [h1]
    simp only [except_bind_ok]
    rw [calc_angle_zero 2 9 (by norm_num)]
    simp only [except_bind_ok]
    rw [calc_angle_zero 1 2 (by norm_num)]
    simp only [except_bind_ok]
    rw [calc_angle_neg_half]
    simp only [except_bind_ok]

/-- C9 witness: the clamp-free branch applied at the concrete inputs
of the conversion example. -/
theorem calc_angle_from_inner_product_c9_witness :
    (0 : ℝ) < 9 ∧ (0 : ℝ) < 1 ∧ |(-4.5) / ((9 : ℝ) * 1)| ≤ 1 ∧
    calc_angle_from_inner_product 9 1 (-4.5) =
      .ok (degrees_of (Real.arccos ((-4.5) / ((9 : ℝ) * 1)))) := by
  have habs : |(-4.5) / ((9 : ℝ) * 1)| ≤ 1 := by
    rw [show (-4.5) / ((9 : ℝ) * 1) = -(1 / 2) by norm_num, abs_neg,
      abs_of_nonneg (by norm_num : (0 : ℝ) ≤ 1 / 2)]
    norm_num
  exact ⟨by norm_num, by norm_num, habs,
    (calc_angle_from_inner_product_c9.1 9 1 (-4.5) (by norm_num)
      (by norm_num)).2 habs⟩

/-- C7: the claim says the relaxed structure is re-checked for minimum
interatomic distance against the tight tolerance 1e-2 and that the
check completes without raising.  In the code the call passes the
keyword argument dtol=1e-02 to has_enough_space_between_atoms, whose
definition has no dtol parameter, so every input that passes the
energy and volume checks raises TypeError at that call instead of
performing any distance comparison. -/
theorem check_previous_relaxation_c7_type_error :
    check_previous_relaxation "UNFINISHED" 0.5 1 2 (fun _ _ => 3) 2 =
      .error "TypeError: has_enough_space_between_atoms got an unexpected keyword argument dtol" := by
  have he : ¬((0.5 : ℝ) ≥ 1e8 ∨ (0.5 : ℝ) ≤ -1e3) := by norm_num
  have hv : ¬((1 : ℝ) ≥ 200 * 4 * Real.pi * (0.5 * 2) ^ 3 / 3) := by
    have hπ := Real.pi_gt_three
    push_neg
    nlinarith
  have hne : ("UNFINISHED" : String) ≠ "stop" := by decide
  have hkw : ¬(py_call_accepts_kwarg
      has_enough_space_between_atoms_params "dtol" = true) := by decide
  simp only [check_previous_relaxation]
  rw [if_neg he, if_neg hv, if_pos hne, if_neg hkw]

/-- C8 (confirmed): whenever the computed energy is at least 1e8 or at
most -1e3, check_previous_relaxation returns the stop classification
(the literal "stop" in the code) regardless of the termination reason
parsed from the minimizer log and of every other input; the distance
check, which would raise, is guarded off. -/
theorem check_previous_relaxation_c8_energy_stop (log_status : String)
    (energy volume d : ℝ) (distances : ℕ → ℕ → ℝ) (n_atom : ℕ)
    (h : energy ≥ 1e8 ∨ energy ≤ -1e3) :
    check_previous_relaxation log_status energy volume d distances n_atom =
      .ok "stop" := by
  simp only [check_previous_relaxation]
  rw [if_pos h, ite_self]
  rw [if_neg (fun h2 => h2 rfl : ¬("stop" : String) ≠ "stop")]

/-- C8 witness: energy 1e9 yields the stop classification at concrete
values of all the other inputs. -/
theorem check_previous_relaxation_c8_witness :
    ((1e9 : ℝ) ≥ 1e8 ∨ (1e9 : ℝ) ≤ -1e3) ∧
    check_previous_relaxation "Iterations reached" 1e9 1 2 (fun _ _ => 3) 2 =
      .ok "stop" :=
  ⟨Or.inl (by norm_num),
   check_previous_relaxation_c8_energy_stop "Iterations reached" 1e9 1 2
     (fun _ _ => 3) 2 (Or.inl (by norm_num))⟩
